import Mathlib

/-!
Shallow embedding of `snetlog` (src/log.go): a multi-sink logger with a
console sink, a buffered file sink drained by a periodic flush task, and a
remote (Stackdriver) sink.  Go machine state is modelled explicitly: the
`Log` struct becomes a Lean structure, the side effects of one call become
a returned list of events, and the file system seen by the flush task
becomes a function from paths to optional contents.
-/

namespace snetlog

/-- The empty string, named so it can follow a function name in a term. -/
def emptyStr : String := ""

/-- A newline, as the sinks append it. -/
def nlStr : String := "\n"

/-- The separator Go's `fmt` puts between extra-argument markers. -/
def extraSep : String := ", "

/-- A single space, the separator `fmt.Sprint` inserts between two
adjacent operands when neither is a string. -/
def spaceSep : String := " "

/-- The newline character. -/
def nlChar : Char := Char.ofNat 10

/- Severity values of the `cloud.google.com/go/logging` package, which the
source uses as map keys and dispatch arguments.  They are integer constants
in that package. -/
namespace logging

def Default : Int := 0

def Debug : Int := 100

def Info : Int := 200

def Notice : Int := 300

def Warning : Int := 400

def Error : Int := 500

def Critical : Int := 600

def Alert : Int := 700

def Emergency : Int := 800

end logging

/-- The `formats` severity→tag map (src/log.go lines 34-42).  A Go map
lookup on a missing key yields the zero value `""`. -/
def formats (s : Int) : String :=
  if s = logging.Debug then "[TRACE] "
  else if s = logging.Info then "[INFO] "
  else if s = logging.Notice then "[NOTICE] "
  else if s = logging.Warning then "[WARN] "
  else if s = logging.Error then "[ERROR] "
  else if s = logging.Alert then "[ALERT] "
  else if s = logging.Emergency then "[EMERGENCY] "
  else ""

/-- The fields of a Go `time.Time` that `formataTimePadraoLog` reads. -/
structure GoTime where
  day : Nat
  month : Nat
  year : Nat
  hour : Nat
  minute : Nat
  second : Nat
  nanosecond : Nat
deriving DecidableEq, Repr

/-- Go `%02d`: decimal, zero-padded on the left to width 2. -/
def pad2 (n : Nat) : String :=
  if n < 10 then "0" ++ Nat.repr n else Nat.repr n

/-- Go `%04d`: decimal, zero-padded on the left to width 4. -/
def pad4 (n : Nat) : String :=
  if n < 10 then "000" ++ Nat.repr n
  else if n < 100 then "00" ++ Nat.repr n
  else if n < 1000 then "0" ++ Nat.repr n
  else Nat.repr n

/-- The function `formataTimePadraoLog` (src/log.go lines 60-64): renders `t` with the
format string `"%02d/%02d/%04d %02d:%02d:%02d.%d"` applied to day, month,
year, hour, minute, second and nanosecond/1e6.  The millisecond verb is a
plain `%d`, with no padding. -/
def formataTimePadraoLog (t : GoTime) : String :=
  pad2 t.day ++ "/" ++ pad2 t.month ++ "/" ++ pad4 t.year ++ " " ++
  pad2 t.hour ++ ":" ++ pad2 t.minute ++ ":" ++ pad2 t.second ++ "." ++
  Nat.repr (t.nanosecond / 1000000)

/-- A Go interface-typed argument, restricted to the two kinds the proofs
exercise: strings and integers. -/
inductive GoVal where
  | str (s : String)
  | int (n : Int)
deriving DecidableEq, Repr

/-- Default rendering of a value, as `fmt.Sprint`/`%v` produce it. -/
def GoVal.render : GoVal → String
  | .str s => s
  | .int n => Int.repr n

def GoVal.isStr : GoVal → Bool
  | .str _ => true
  | .int _ => false

/-- Go type name of a value, used in `fmt` diagnostic markers. -/
def GoVal.typeName : GoVal → String
  | .str _ => "string"
  | .int _ => "int"

/-- Go's `fmt.Sprint` over the argument list: concatenates the operands' default
representations, inserting a single space between two operands when
neither of them is a string. -/
def sprint : List GoVal → String
  | [] => ""
  | [v] => v.render
  | v :: w :: rest =>
      v.render ++ (if v.isStr || w.isStr then emptyStr else spaceSep) ++ sprint (w :: rest)

/-- One `fmt` verb applied to one argument; mismatches produce Go's
literal error markers. -/
def GoVal.formatVerb (c : Char) (v : GoVal) : String :=
  match c, v with
  | 's', .str s => s
  | 's', .int n => "%!s(int=" ++ Int.repr n ++ ")"
  | 'd', .int n => Int.repr n
  | 'd', .str s => "%!d(string=" ++ s ++ ")"
  | 'v', v => v.render
  | c, v => "%!" ++ String.singleton c ++ "(" ++ v.typeName ++ "=" ++ v.render ++ ")"

/-- Go's `fmt.Sprintf` over the verbs the package's callers use (`%s`, `%d`,
`%v`, `%%`), with Go's markers for missing and extra arguments. -/
def sprintfAux : List Char → List GoVal → String
  | '%' :: c :: rest, args =>
      if c = '%' then "%" ++ sprintfAux rest args
      else
        match args with
        | [] => "%!" ++ String.singleton c ++ "(MISSING)" ++ sprintfAux rest []
        | v :: args => GoVal.formatVerb c v ++ sprintfAux rest args
  | ['%'], _ => "%!(NOVERB)"
  | c :: rest, args => String.singleton c ++ sprintfAux rest args
  | [], [] => ""
  | [], extras =>
      "%!(EXTRA " ++
      String.intercalate extraSep (extras.map (fun v => v.typeName ++ "=" ++ v.render)) ++ ")"

def sprintf (format : String) (args : List GoVal) : String :=
  sprintfAux format.data args

/-- The format-or-join rule shared by the remote payload (src/log.go lines
85-92) and the file sink line body (lines 112-116): `Sprintf` when a format
is given, `Sprint` otherwise. -/
def renderMessage (format : String) (args : List GoVal) : String :=
  if format = "" then sprint args else sprintf format args

/-- The `Log` struct (src/log.go lines 45-57).  `bufferFile` is `none` for
a nil `*bytes.Buffer` and `some s` for a buffer holding bytes `s`;
`hasStackdriver` models `logStackdriver != nil`.  The two mutexes carry no
data and are modelled by the atomicity of the step functions below. -/
structure Log where
  enableConsole : Bool := false
  enableFile : Bool := false
  enableStackDriver : Bool := false
  fileName : String := ""
  bufferFile : Option String := none
  hasStackdriver : Bool := false
deriving DecidableEq, Repr

/-- Output streams of the process. -/
inductive Stream where
  | stdout
  | stderr
deriving DecidableEq, Repr

/-- Observable effects of one `output` call: a Stackdriver entry, or one
write to a standard stream. -/
inductive Event where
  | remoteLog (severity : Int) (payload : String)
  | write (stream : Stream) (content : String)
deriving DecidableEq, Repr

def Event.isWrite : Event → Bool
  | .write _ _ => true
  | .remoteLog _ _ => false

/-- The date-time header the Go standard `log` package (default flags
`Ldate | Ltime`) places before every message it prints:
`YYYY/MM/DD hh:mm:ss `.  `log.Printf` writes to standard error. -/
def logStdHeader (t : GoTime) : String :=
  pad4 t.year ++ "/" ++ pad2 t.month ++ "/" ++ pad2 t.day ++ " " ++
  pad2 t.hour ++ ":" ++ pad2 t.minute ++ ":" ++ pad2 t.second ++ " "

/-- Go's `log.Printf` applied to a format with no arguments: the standard logger renders
the header, the formatted text, and a trailing newline if the text's last
character is not already `\n`, in one write to standard error. -/
def logPrintfLine (now : GoTime) (format : String) : String :=
  let body := sprintf format []
  logStdHeader now ++ body ++
    (if body.data.getLast? = some nlChar then emptyStr else nlStr)

/-- The method `output` (src/log.go lines 83-120).  Both `time.Now()` calls of
one invocation are modelled by the single instant `now`.  Returns the
updated logger state and the emitted events in program order
(remote, then console). -/
def output (l : Log) (now : GoTime) (severity : Int) (format : String)
    (args : List GoVal) : Log × List Event :=
  let remoteEvents :=
    if l.enableStackDriver = true ∧ l.hasStackdriver = true then
      if format ≠ "" then [Event.remoteLog severity (sprintf format args)]
      else [Event.remoteLog severity (sprint args)]
    else []
  let consoleEvents :=
    if l.enableConsole = true then
      [Event.write .stderr (logPrintfLine now (formats severity)),
       Event.write .stdout (formataTimePadraoLog now ++ ": "),
       Event.write .stdout
         (if format = "" then sprintf (sprint args) [] else sprintf format args),
       Event.write .stdout nlStr]
    else []
  let l2 :=
    if l.enableFile = true ∧ l.fileName ≠ "" ∧ l.bufferFile.isSome then
      let grown := l.bufferFile.getD emptyStr ++ formats severity ++
        formataTimePadraoLog now ++ ": " ++ renderMessage format args ++ "\n"
      { l with bufferFile := some grown }
    else l
  (l2, remoteEvents ++ consoleEvents)

/-- Result of one tick of the flush loop: the logger state, the file
system after the tick, the write request issued to `ioutil.WriteFile`
(path and bytes) if any, and whether `muxFile.Unlock()` was executed
before the tick ended. -/
structure FlushResult where
  log : Log
  fs : String → Option String
  written : Option (String × String)
  lockReleased : Bool

/-- One tick of `flushLogFile`'s loop (src/log.go lines 70-78), taken with
the file lock held from `log.muxFile.Lock()`.  `f` is the file system
before the tick; `writeOk` tells whether the attempted `ioutil.WriteFile`
(whose error the source discards) succeeds.  Note the source's
`muxFile.Unlock()` sits inside the `bufferFile != nil` branch. -/
def flushTick (l : Log) (f : String → Option String) (writeOk : Bool) : FlushResult :=
  match l.bufferFile with
  | some buf =>
      if buf.length > 0 ∧ l.fileName ≠ "" then
        { log := { l with bufferFile := some emptyStr },
          fs := if writeOk then
                  fun p => if p = l.fileName then some buf else f p
                else f,
          written := some (l.fileName, buf),
          lockReleased := true }
      else
        { log := { l with bufferFile := some emptyStr },
          fs := f,
          written := none,
          lockReleased := true }
  | none => { log := l, fs := f, written := none, lockReleased := false }

def Log.Trace (l : Log) (now : GoTime) (args : List GoVal) : Log × List Event :=
  output l now logging.Debug "" args

def Log.Tracef (l : Log) (now : GoTime) (format : String) (args : List GoVal) :
    Log × List Event :=
  output l now logging.Debug format args

def Log.Info (l : Log) (now : GoTime) (args : List GoVal) : Log × List Event :=
  output l now logging.Info "" args

/-- The method `Infof` (src/log.go lines 138-140): the source passes `logging.Debug`. -/
def Log.Infof (l : Log) (now : GoTime) (format : String) (args : List GoVal) :
    Log × List Event :=
  output l now logging.Debug format args

def Log.Notice (l : Log) (now : GoTime) (args : List GoVal) : Log × List Event :=
  output l now logging.Notice "" args

def Log.Noticef (l : Log) (now : GoTime) (format : String) (args : List GoVal) :
    Log × List Event :=
  output l now logging.Notice format args

def Log.Erro (l : Log) (now : GoTime) (args : List GoVal) : Log × List Event :=
  output l now logging.Error "" args

def Log.Errof (l : Log) (now : GoTime) (format : String) (args : List GoVal) :
    Log × List Event :=
  output l now logging.Error format args

def Log.Warn (l : Log) (now : GoTime) (args : List GoVal) : Log × List Event :=
  output l now logging.Warning "" args

def Log.Warnf (l : Log) (now : GoTime) (format : String) (args : List GoVal) :
    Log × List Event :=
  output l now logging.Warning format args

def Log.Alert (l : Log) (now : GoTime) (args : List GoVal) : Log × List Event :=
  output l now logging.Alert "" args

def Log.Alertf (l : Log) (now : GoTime) (format : String) (args : List GoVal) :
    Log × List Event :=
  output l now logging.Alert format args

def Log.Emergency (l : Log) (now : GoTime) (args : List GoVal) : Log × List Event :=
  output l now logging.Emergency "" args

def Log.Emergencyf (l : Log) (now : GoTime) (format : String) (args : List GoVal) :
    Log × List Event :=
  output l now logging.Emergency format args

structure FileConfig where
  FileName : String
deriving DecidableEq, Repr

/-- The constructor `NewLogFile` (src/log.go lines 198-208); the started flush goroutine
is modelled by applying `flushTick` to the result. -/
def NewLogFile (config : FileConfig) : Log :=
  { enableFile := true, fileName := config.FileName, bufferFile := some emptyStr }

structure ConsoleConfig where
  FileName : String
deriving DecidableEq, Repr

/-- The constructor `NewLogConsole` (src/log.go lines 216-222): only `enableConsole` is
set; the config (and its FileName field) is not read. -/
def NewLogConsole (config : ConsoleConfig) : Log :=
  { enableConsole := true }

/-- One facade call: the instant of the call, the severity the caller's
method carries, a format (empty for the plain variants) and arguments. -/
def runCalls (l : Log) : List (GoTime × Int × String × List GoVal) → Log × List Event
  | [] => (l, [])
  | (now, sev, format, args) :: rest =>
      let step := output l now sev format args
      let steps := runCalls step.1 rest
      (steps.1, step.2 ++ steps.2)

/- Concrete inputs used by closed witnesses and counterexamples. -/

/-- The spec's example instant, 2024-03-05 07:08:09.123. -/
def exInstant : GoTime := ⟨5, 3, 2024, 7, 8, 9, 123000000⟩

/-- The same instant with a 5 ms sub-second part. -/
def exInstantMs5 : GoTime := ⟨5, 3, 2024, 7, 8, 9, 5000000⟩

def exMsgX : String := "x"

def exMsgW : String := "w"

def exMsgA : String := "a"

def exMsgB : String := "b"

def exPath : String := "a.log"

def exOldBytes : String := "old"

def exLineBytes : String := "line"

/-- A logger with only the Stackdriver sink live. -/
def remoteOnlyLog : Log := { enableStackDriver := true, hasStackdriver := true }

/-- A logger as `NewLogConsole` builds it. -/
def consoleOnlyLog : Log := { enableConsole := true }

/-- File sink enabled and buffered, but with an empty destination path. -/
def filePathlessLog : Log :=
  { enableFile := true, fileName := emptyStr, bufferFile := some emptyStr }

/-- File sink enabled with a path but a nil buffer pointer. -/
def fileNilBufferLog : Log :=
  { enableFile := true, fileName := exPath, bufferFile := none }

/-- File logger whose buffer already holds some bytes. -/
def fileReadyLog : Log :=
  { enableFile := true, fileName := exPath, bufferFile := some exOldBytes }

/-- File logger holding one pending line. -/
def fileLineLog : Log :=
  { enableFile := true, fileName := exPath, bufferFile := some exLineBytes }

/-- A file system with no files. -/
def emptyFs : String → Option String := fun _ => none

/-! Theorems. -/

set_option maxRecDepth 40000

/-- C8: the severity→tag mapping is total and fixed: the seven severities
map to their documented bracketed uppercase tags, and any other severity
maps to the empty string. -/
theorem C8_formats_total_and_fixed :
    formats logging.Debug = "[TRACE] " ∧
    formats logging.Info = "[INFO] " ∧
    formats logging.Notice = "[NOTICE] " ∧
    formats logging.Warning = "[WARN] " ∧
    formats logging.Error = "[ERROR] " ∧
    formats logging.Alert = "[ALERT] " ∧
    formats logging.Emergency = "[EMERGENCY] " ∧
    (∀ s : Int, s ≠ logging.Debug → s ≠ logging.Info → s ≠ logging.Notice →
      s ≠ logging.Warning → s ≠ logging.Error → s ≠ logging.Alert →
      s ≠ logging.Emergency → formats s = emptyStr) := by
  refine ⟨by decide, by decide, by decide, by decide, by decide, by decide, by decide, ?_⟩
  intro s h1 h2 h3 h4 h5 h6 h7
  unfold formats
  rw [if_neg h1, if_neg h2, if_neg h3, if_neg h4, if_neg h5, if_neg h6, if_neg h7]
  rfl

/-- Witness for C8 at the unmapped severity `logging.Critical` (600). -/
theorem C8_formats_unknown_severity_witness : formats logging.Critical = emptyStr :=
  C8_formats_total_and_fixed.2.2.2.2.2.2.2 logging.Critical
    (by decide) (by decide) (by decide) (by decide) (by decide) (by decide) (by decide)

/-- C1 (code bug): `Infof` dispatches to `output` with `logging.Debug`
(severity 100), not `logging.Info` (200) — visible in the remote event —
while the plain `Info` method dispatches with `logging.Info`. -/
theorem C1_infof_passes_debug :
    (Log.Infof remoteOnlyLog exInstant exMsgX []).2 =
      [Event.remoteLog logging.Debug exMsgX] ∧
    logging.Debug ≠ logging.Info ∧
    (Log.Info remoteOnlyLog exInstant [GoVal.str exMsgX]).2 =
      [Event.remoteLog logging.Info exMsgX] := by
  decide

/-- C4 (code bug): a flush tick on a logger whose buffer pointer is nil
acquires the file lock but never executes `Unlock` (the source's `Unlock`
sits inside the `bufferFile != nil` branch), while a tick on a logger with
a live buffer does release the lock. -/
theorem C4_nil_buffer_tick_keeps_lock :
    (flushTick fileNilBufferLog emptyFs true).lockReleased = false ∧
    (flushTick fileLineLog emptyFs true).lockReleased = true :=
  ⟨rfl, rfl⟩

/-- C2 counterexample: at a 5 ms instant the millisecond field is rendered
with one digit, not three — the output has 21 characters, not the 23 of
`DD/MM/YYYY hh:mm:ss.mmm`. -/
theorem C2_ms_not_padded_counterexample :
    formataTimePadraoLog exInstantMs5 = "05/03/2024 07:08:09.5" ∧
    (formataTimePadraoLog exInstantMs5).length ≠ 23 := by
  decide

/-- C5 counterexample: a plain facade call with two non-string arguments
renders them with a separating space, not as plain concatenation. -/
theorem C5_nonstring_args_counterexample :
    (Log.Info remoteOnlyLog exInstant [GoVal.int 1, GoVal.int 2]).2 =
      [Event.remoteLog logging.Info "1 2"] ∧
    (Log.Info remoteOnlyLog exInstant [GoVal.int 1, GoVal.int 2]).2 ≠
      [Event.remoteLog logging.Info "12"] := by
  decide

/-- C6 counterexample: the console segments of one call are not four
writes to standard output — the tag goes through the standard `log`
package, to standard error, with that package's date-time header and its
own newline. -/
theorem C6_tag_not_on_stdout_counterexample :
    ¬ ((output consoleOnlyLog exInstant logging.Info emptyStr [GoVal.str exMsgX]).2 =
      [Event.write Stream.stdout (formats logging.Info),
       Event.write Stream.stdout (formataTimePadraoLog exInstant ++ ": "),
       Event.write Stream.stdout exMsgX,
       Event.write Stream.stdout nlStr]) := by
  decide

/-- Go `%02d` produces exactly two characters for the values that can occur
in a date-time field. -/
theorem pad2_length_eq_two : ∀ n, n < 100 → (pad2 n).length = 2 := by
  decide

/-- Decimal representations of numbers below 1000 have one to three
digits. -/
theorem repr_length_lt_thousand :
    ∀ n, n < 1000 → 1 ≤ (Nat.repr n).length ∧ (Nat.repr n).length ≤ 3 := by
  decide

theorem pad4_length_eq_four_small : ∀ n, n < 1000 → (pad4 n).length = 4 := by
  decide

theorem repr_length_thousands :
    ∀ n, n < 1000 →
      (Nat.repr (1000 + n)).length = 4 ∧ (Nat.repr (2000 + n)).length = 4 ∧
      (Nat.repr (3000 + n)).length = 4 ∧ (Nat.repr (4000 + n)).length = 4 ∧
      (Nat.repr (5000 + n)).length = 4 ∧ (Nat.repr (6000 + n)).length = 4 ∧
      (Nat.repr (7000 + n)).length = 4 ∧ (Nat.repr (8000 + n)).length = 4 ∧
      (Nat.repr (9000 + n)).length = 4 := by
  decide

/-- Go `%04d` produces exactly four characters for any value below 10000. -/
theorem pad4_length_eq_four (n : Nat) (h : n < 10000) : (pad4 n).length = 4 := by
  by_cases h1 : n < 1000
  · exact pad4_length_eq_four_small n h1
  · have h2 : pad4 n = Nat.repr n := by
      unfold pad4
      rw [if_neg (by omega), if_neg (by omega), if_neg (by omega)]
    rw [h2]
    have hm : n % 1000 < 1000 := by omega
    have hr := repr_length_thousands (n % 1000) hm
    have hj : n / 1000 = 1 ∨ n / 1000 = 2 ∨ n / 1000 = 3 ∨ n / 1000 = 4 ∨
        n / 1000 = 5 ∨ n / 1000 = 6 ∨ n / 1000 = 7 ∨ n / 1000 = 8 ∨
        n / 1000 = 9 := by omega
    rcases hj with hj | hj | hj | hj | hj | hj | hj | hj | hj
    · rw [show n = 1000 + n % 1000 by omega]; exact hr.1
    · rw [show n = 2000 + n % 1000 by omega]; exact hr.2.1
    · rw [show n = 3000 + n % 1000 by omega]; exact hr.2.2.1
    · rw [show n = 4000 + n % 1000 by omega]; exact hr.2.2.2.1
    · rw [show n = 5000 + n % 1000 by omega]; exact hr.2.2.2.2.1
    · rw [show n = 6000 + n % 1000 by omega]; exact hr.2.2.2.2.2.1
    · rw [show n = 7000 + n % 1000 by omega]; exact hr.2.2.2.2.2.2.1
    · rw [show n = 8000 + n % 1000 by omega]; exact hr.2.2.2.2.2.2.2.1
    · rw [show n = 9000 + n % 1000 by omega]; exact hr.2.2.2.2.2.2.2.2

/-- C2 (amended): the timestamp is
`DD/MM/YYYY hh:mm:ss.` followed by the millisecond value (nanoseconds
divided by 1,000,000 with integer truncation) rendered with `%d` — one to
three digits, with no zero-padding — while day, month, hour, minute and
second are zero-padded to exactly 2 characters and the year to exactly 4;
the spec's example instant still renders as `"05/03/2024 07:08:09.123"`. -/
theorem C2_timestamp_shape (t : GoTime) (hd : t.day < 100) (hmo : t.month < 100)
    (hy : t.year < 10000) (hh : t.hour < 100) (hmi : t.minute < 100)
    (hs : t.second < 100) (hns : t.nanosecond < 1000000000) :
    formataTimePadraoLog t =
      pad2 t.day ++ "/" ++ pad2 t.month ++ "/" ++ pad4 t.year ++ " " ++
        pad2 t.hour ++ ":" ++ pad2 t.minute ++ ":" ++ pad2 t.second ++ "." ++
        Nat.repr (t.nanosecond / 1000000) ∧
    (pad2 t.day).length = 2 ∧ (pad2 t.month).length = 2 ∧
    (pad4 t.year).length = 4 ∧ (pad2 t.hour).length = 2 ∧
    (pad2 t.minute).length = 2 ∧ (pad2 t.second).length = 2 ∧
    t.nanosecond / 1000000 < 1000 ∧
    1 ≤ (Nat.repr (t.nanosecond / 1000000)).length ∧
    (Nat.repr (t.nanosecond / 1000000)).length ≤ 3 ∧
    formataTimePadraoLog exInstant = "05/03/2024 07:08:09.123" := by
  have hms : t.nanosecond / 1000000 < 1000 := by omega
  exact ⟨rfl, pad2_length_eq_two t.day hd, pad2_length_eq_two t.month hmo,
    pad4_length_eq_four t.year hy, pad2_length_eq_two t.hour hh,
    pad2_length_eq_two t.minute hmi, pad2_length_eq_two t.second hs, hms,
    (repr_length_lt_thousand _ hms).1, (repr_length_lt_thousand _ hms).2,
    by decide⟩

/-- Witness for C2 at the spec's example instant. -/
theorem C2_timestamp_shape_witness :
    formataTimePadraoLog exInstant =
      pad2 exInstant.day ++ "/" ++ pad2 exInstant.month ++ "/" ++
        pad4 exInstant.year ++ " " ++ pad2 exInstant.hour ++ ":" ++
        pad2 exInstant.minute ++ ":" ++ pad2 exInstant.second ++ "." ++
        Nat.repr (exInstant.nanosecond / 1000000) ∧
    (pad2 exInstant.day).length = 2 ∧ (pad2 exInstant.month).length = 2 ∧
    (pad4 exInstant.year).length = 4 ∧ (pad2 exInstant.hour).length = 2 ∧
    (pad2 exInstant.minute).length = 2 ∧ (pad2 exInstant.second).length = 2 ∧
    exInstant.nanosecond / 1000000 < 1000 ∧
    1 ≤ (Nat.repr (exInstant.nanosecond / 1000000)).length ∧
    (Nat.repr (exInstant.nanosecond / 1000000)).length ≤ 3 ∧
    formataTimePadraoLog exInstant = "05/03/2024 07:08:09.123" :=
  C2_timestamp_shape exInstant (by decide) (by decide) (by decide) (by decide)
    (by decide) (by decide) (by decide)

/-- A string is non-empty exactly when its length is positive. -/
theorem string_ne_empty_iff_length_pos (s : String) : s ≠ "" ↔ 0 < s.length := by
  cases s with
  | mk data =>
    cases data with
    | nil => simp [String.length, String.ext_iff]
    | cons c cs => simp [String.length, String.ext_iff]

/-- C3: one flush tick on a logger with a live buffer issues the write
request `(path, buffer bytes)` iff the buffer and the path are non-empty;
a successful write fully replaces the destination's content with exactly
the buffered bytes; and in every case — even with `writeOk = false` — the
buffer is empty afterwards. -/
theorem C3_flush_tick_contract (l : Log) (buf : String) (f : String → Option String)
    (ok : Bool) (hb : l.bufferFile = some buf) :
    ((flushTick l f true).written = some (l.fileName, buf) ↔
      buf ≠ "" ∧ l.fileName ≠ "") ∧
    ((flushTick l f true).written = some (l.fileName, buf) →
      (flushTick l f true).fs l.fileName = some buf) ∧
    (flushTick l f ok).log.bufferFile = some emptyStr := by
  simp only [flushTick, hb]
  by_cases hc : buf.length > 0 ∧ l.fileName ≠ ""
  · rw [if_pos hc, if_pos hc]
    refine ⟨⟨fun _ => ⟨(string_ne_empty_iff_length_pos buf).mpr hc.1, hc.2⟩, fun _ => rfl⟩,
      fun _ => by simp, rfl⟩
  · rw [if_neg hc, if_neg hc]
    refine ⟨⟨?_, ?_⟩, ?_, rfl⟩
    · intro hw
      exact absurd hw (by simp)
    · intro hw
      exact absurd ⟨(string_ne_empty_iff_length_pos buf).mp hw.1, hw.2⟩ hc
    · intro hw
      exact absurd hw (by simp)

/-- Witness for C3: a tick on a logger holding one pending line and a
configured path. -/
theorem C3_flush_tick_contract_witness :
    ((flushTick fileLineLog emptyFs true).written =
        some (fileLineLog.fileName, exLineBytes) ↔
      exLineBytes ≠ "" ∧ fileLineLog.fileName ≠ "") ∧
    ((flushTick fileLineLog emptyFs true).written =
        some (fileLineLog.fileName, exLineBytes) →
      (flushTick fileLineLog emptyFs true).fs fileLineLog.fileName =
        some exLineBytes) ∧
    (flushTick fileLineLog emptyFs true).log.bufferFile = some emptyStr :=
  C3_flush_tick_contract fileLineLog exLineBytes emptyFs true rfl

/-- C10: a failed file write during a flush tick is silently discarded:
no file changes, the buffer is still reset, and the logger state after a
failed write is identical to the state after a successful one. -/
theorem C10_write_failure_swallowed (l : Log) (buf : String)
    (f : String → Option String) (hb : l.bufferFile = some buf) :
    (flushTick l f false).fs = f ∧
    (flushTick l f false).log = { l with bufferFile := some emptyStr } ∧
    (flushTick l f false).log = (flushTick l f true).log := by
  simp only [flushTick, hb]
  by_cases hc : buf.length > 0 ∧ l.fileName ≠ ""
  · rw [if_pos hc, if_pos hc]
    exact ⟨by simp, rfl, rfl⟩
  · rw [if_neg hc, if_neg hc]
    exact ⟨rfl, rfl, rfl⟩

/-- Witness for C10: a failed write on a logger holding one pending
line. -/
theorem C10_write_failure_swallowed_witness :
    (flushTick fileLineLog emptyFs false).fs = emptyFs ∧
    (flushTick fileLineLog emptyFs false).log =
      { fileLineLog with bufferFile := some emptyStr } ∧
    (flushTick fileLineLog emptyFs false).log =
      (flushTick fileLineLog emptyFs true).log :=
  C10_write_failure_swallowed fileLineLog exLineBytes emptyFs rfl

/-- C7 counterexample: with the file sink enabled and a live buffer but an
empty path, a log call appends nothing to the buffer. -/
theorem C7_empty_path_counterexample :
    (output filePathlessLog exInstant logging.Info emptyStr [GoVal.str exMsgX]).1.bufferFile =
      some emptyStr ∧
    ¬ ((output filePathlessLog exInstant logging.Info emptyStr [GoVal.str exMsgX]).1.bufferFile =
      some (emptyStr ++ formats logging.Info ++ formataTimePadraoLog exInstant ++ ": " ++
        exMsgX ++ "\n")) := by
  decide

/-- Joining a cons is the head appended to the joined tail. -/
theorem string_join_cons (s : String) (rest : List String) :
    String.join (s :: rest) = s ++ String.join rest := by
  rw [String.join_eq, String.join_eq]
  cases s with
  | mk data => rfl

/-- Applied to strings only, `sprint` is plain concatenation. -/
theorem sprint_all_strings (ss : List String) :
    sprint (ss.map GoVal.str) = String.join ss := by
  induction ss with
  | nil => rfl
  | cons s tl ih =>
    cases tl with
    | nil =>
      rw [string_join_cons]
      simp [sprint, GoVal.render, String.join]
    | cons s2 tl2 =>
      rw [string_join_cons]
      simp only [List.map_cons, sprint, GoVal.isStr, Bool.true_or, if_true,
        GoVal.render] at ih ⊢
      rw [ih]
      simp [emptyStr, String.append_assoc]

/-- C5 (amended): a plain facade call renders the message with
`fmt.Sprint`: the arguments' default representations are concatenated with
a single space inserted between two adjacent arguments when neither is a
string and no separator otherwise — so all-string argument lists are plain
concatenation (`Info("a","b")` gives `"ab"`), while two integers are
joined with a space. -/
theorem C5_plain_message_rendering :
    (∀ ss : List String, renderMessage emptyStr (ss.map GoVal.str) = String.join ss) ∧
    (∀ (v w : GoVal) (rest : List GoVal),
      renderMessage emptyStr (v :: w :: rest) =
        v.render ++ (if v.isStr || w.isStr then emptyStr else spaceSep) ++
          renderMessage emptyStr (w :: rest)) ∧
    renderMessage emptyStr [GoVal.str exMsgA, GoVal.str exMsgB] = "ab" ∧
    renderMessage emptyStr [GoVal.int 1, GoVal.int 2] = "1 2" := by
  refine ⟨fun ss => ?_, fun v w rest => rfl, by decide, by decide⟩
  simpa [renderMessage, emptyStr] using sprint_all_strings ss

/-- The map `formats` only ever returns one of its seven tags or the empty
string. -/
theorem formats_eq_cases (s : Int) :
    formats s = "[TRACE] " ∨ formats s = "[INFO] " ∨ formats s = "[NOTICE] " ∨
    formats s = "[WARN] " ∨ formats s = "[ERROR] " ∨ formats s = "[ALERT] " ∨
    formats s = "[EMERGENCY] " ∨ formats s = "" := by
  unfold formats
  repeat' split
  all_goals simp

/-- Each possible tag passes through `Sprintf` unchanged and does not end
in a newline. -/
theorem sprintf_tag_facts (s : Int) :
    sprintf (formats s) [] = formats s ∧
      ¬ ((formats s).data.getLast? = some nlChar) := by
  rcases formats_eq_cases s with h | h | h | h | h | h | h | h <;>
    rw [h] <;> exact ⟨by decide, by decide⟩

/-- Printing a tag through the standard logger emits the standard header, the tag, and a
trailing newline. -/
theorem logPrintfLine_formats (now : GoTime) (s : Int) :
    logPrintfLine now (formats s) = logStdHeader now ++ (formats s ++ nlStr) := by
  have h := sprintf_tag_facts s
  simp only [logPrintfLine, h.1, if_neg h.2, String.append_assoc]

/-- C6 (amended): with the console sink enabled, one log call performs
exactly four stream writes: the tag line goes to standard error through
the standard `log` package — prefixed with that package's date-time
header and given its own trailing newline — and the timestamp with
`": "`, the rendered message, and a final newline go to standard output
as three separate writes, with nothing else. -/
theorem C6_console_writes (l : Log) (now : GoTime) (sev : Int) (format : String)
    (args : List GoVal) (h : l.enableConsole = true) :
    ((output l now sev format args).2.filter Event.isWrite) =
      [Event.write Stream.stderr (logStdHeader now ++ (formats sev ++ nlStr)),
       Event.write Stream.stdout (formataTimePadraoLog now ++ ": "),
       Event.write Stream.stdout
         (if format = "" then sprintf (sprint args) [] else sprintf format args),
       Event.write Stream.stdout nlStr] := by
  simp only [output, h, logPrintfLine_formats]
  by_cases hr : l.enableStackDriver = true ∧ l.hasStackdriver = true
  · rw [if_pos hr]
    by_cases hf : format ≠ ""
    · rw [if_pos hf]
      simp [List.filter, Event.isWrite]
    · rw [if_neg hf]
      simp [List.filter, Event.isWrite]
  · rw [if_neg hr]
    simp [List.filter, Event.isWrite]

/-- Witness for C6: a plain `Info`-severity call on a console-only
logger. -/
theorem C6_console_writes_witness :
    ((output consoleOnlyLog exInstant logging.Info emptyStr
        [GoVal.str exMsgX]).2.filter Event.isWrite) =
      [Event.write Stream.stderr (logStdHeader exInstant ++ (formats logging.Info ++ nlStr)),
       Event.write Stream.stdout (formataTimePadraoLog exInstant ++ ": "),
       Event.write Stream.stdout
         (if emptyStr = "" then sprintf (sprint [GoVal.str exMsgX]) []
          else sprintf emptyStr [GoVal.str exMsgX]),
       Event.write Stream.stdout nlStr] :=
  C6_console_writes consoleOnlyLog exInstant logging.Info emptyStr
    [GoVal.str exMsgX] rfl

/-- C7 (amended): when the file sink is enabled, the path is non-empty
and the buffer pointer is live, one log call appends exactly the line
`TAG TIMESTAMP: MESSAGE\n` to the buffer, leaving the previously buffered
bytes unchanged in front of it. -/
theorem C7_file_append (l : Log) (now : GoTime) (sev : Int) (format : String)
    (args : List GoVal) (b : String) (hf : l.enableFile = true)
    (hn : l.fileName ≠ "") (hb : l.bufferFile = some b) :
    (output l now sev format args).1.bufferFile =
      some (b ++ formats sev ++ formataTimePadraoLog now ++ ": " ++
        renderMessage format args ++ "\n") := by
  simp only [output]
  rw [if_pos ⟨hf, hn, by rw [hb]; rfl⟩]
  simp [hb]

/-- Witness for C7: a plain `Warning` call on a file logger whose buffer
already holds bytes. -/
theorem C7_file_append_witness :
    (output fileReadyLog exInstant logging.Warning emptyStr
        [GoVal.str exMsgW]).1.bufferFile =
      some (exOldBytes ++ formats logging.Warning ++ formataTimePadraoLog exInstant ++
        ": " ++ renderMessage emptyStr [GoVal.str exMsgW] ++ "\n") :=
  C7_file_append fileReadyLog exInstant logging.Warning emptyStr
    [GoVal.str exMsgW] exOldBytes rfl (by decide) rfl

/-- A call on a logger whose file sink is disabled leaves the logger state
untouched. -/
theorem output_preserves_state_of_no_file (l : Log) (now : GoTime) (sev : Int)
    (format : String) (args : List GoVal) (h : l.enableFile = false) :
    (output l now sev format args).1 = l := by
  simp only [output]
  rw [if_neg]
  intro hc
  rw [h] at hc
  exact absurd hc.1 (by simp)

/-- Any sequence of calls on a logger without the file sink leaves its
state unchanged. -/
theorem runCalls_preserves_state (calls : List (GoTime × Int × String × List GoVal)) :
    ∀ l : Log, l.enableFile = false → (runCalls l calls).1 = l := by
  induction calls with
  | nil => intro l _; rfl
  | cons hd tl ih =>
    intro l h
    obtain ⟨now, sev, format, args⟩ := hd
    show (runCalls (output l now sev format args).1 tl).1 = l
    rw [output_preserves_state_of_no_file l now sev format args h]
    exact ih l h

/-- C9: a console-backed logger is independent of its configuration value
(`FileName` included), never changes its own state — in particular never
grows or resets a file buffer — over any sequence of log calls, and a
flush tick on it writes no file and changes no file content. -/
theorem C9_console_logger_no_file_effects :
    (∀ c1 c2 : ConsoleConfig, NewLogConsole c1 = NewLogConsole c2) ∧
    (∀ (c : ConsoleConfig) (calls : List (GoTime × Int × String × List GoVal)),
      (runCalls (NewLogConsole c) calls).1 = NewLogConsole c) ∧
    (∀ (c : ConsoleConfig) (f : String → Option String) (ok : Bool),
      (flushTick (NewLogConsole c) f ok).fs = f ∧
      (flushTick (NewLogConsole c) f ok).written = none) :=
  ⟨fun _ _ => rfl,
   fun c calls => runCalls_preserves_state calls (NewLogConsole c) rfl,
   fun _ _ _ => ⟨rfl, rfl⟩⟩

end snetlog
